import Mathlib

/-!
Shallow embedding of the RMMD dispatcher and its one-shot secure timer
(`src/services/std_svc/rmmd/rmmd_main.c`, `src/services/std_svc/rmmd/rmmd_timer.c`,
`src/services/std_svc/rmmd/rmmd_private.h`).

The C globals of both translation units are gathered into one explicit state
record.  Register-level effects (SMC_RET macros, world switches, the hardware
comparator programmed by `setting_timer`) are modelled at the boundary: a
handler returns the new state together with a description of the SMC result it
produces (direct return vs. forward), and the hardware timer is modelled by an
armed flag plus the duration last handed to `setting_timer`.
-/

/-! ## Constants from the sources -/

/-- MAX_REALM_NUMS from `rmmd_private.h` (DEST constants block). -/
def MAX_REALM_NUMS : Nat := 4

/-- RMI_REALM_CREATE_FID from `rmmd_private.h`. -/
def RMI_REALM_CREATE_FID : Nat := 0xc4000158

/-- RMI_REALM_ACTIVATE_FID from `rmmd_private.h`. -/
def RMI_REALM_ACTIVATE_FID : Nat := 0xc4000157

/-- RMI_DATA_DESTROY_ALL_FID from `rmmd_private.h`. -/
def RMI_DATA_DESTROY_ALL_FID : Nat := 0xc400016a

/-- RMI_RPV_GET_FID from `rmmd_private.h` (the revision matching `rmmd_main.c`). -/
def RMI_RPV_GET_FID : Nat := 0xc400016b

/-- REALM_DESTROY_TIMER_SECONDS from `rmmd_timer.c`: the fixed fallback duration. -/
def REALM_DESTROY_TIMER_SECONDS : Nat := 1

/-- REALM_RPV_GET_TIMER_SECONDS from `rmmd_timer.c`: the fixed short fetch delay. -/
def REALM_RPV_GET_TIMER_SECONDS : Nat := 5

/-- Modelled from the spec: the fixed "unknown function" result code SMC_UNK.
The defining header (`smccc.h`) is not under `src/`; per the SMCCC convention it
is the all-ones 64-bit value, i.e. -1 as a signed integer.  No claim depends on
the numeric value, only on it being the one fixed rejection code. -/
def SMC_UNK : Int := -1

/-- Modelled from the spec: RMM_RMI_REQ_COMPLETE, the completion trap function
identifier from `services/rmmd_svc.h` (not under `src/`); value as in upstream
TF-A.  Claims only need it distinct from the DEST RMI identifiers above. -/
def RMM_RMI_REQ_COMPLETE : Nat := 0xc4000190

/-- Modelled from the spec: RMM_GTSI_DELEGATE from `services/rmmd_svc.h`. -/
def RMM_GTSI_DELEGATE : Nat := 0xc40001b0

/-- Modelled from the spec: RMM_GTSI_UNDELEGATE from `services/rmmd_svc.h`. -/
def RMM_GTSI_UNDELEGATE : Nat := 0xc40001b1

/-- Modelled from the spec: RMM_ATTEST_GET_PLAT_TOKEN from `services/rmmd_svc.h`. -/
def RMM_ATTEST_GET_PLAT_TOKEN : Nat := 0xc40001b2

/-- Modelled from the spec: RMM_ATTEST_GET_REALM_KEY from `services/rmmd_svc.h`. -/
def RMM_ATTEST_GET_REALM_KEY : Nat := 0xc40001b3

/-- Modelled from the spec: RMM_EL3_FEATURES from `services/rmmd_svc.h`. -/
def RMM_EL3_FEATURES : Nat := 0xc40001b4

/-- Modelled from the spec: RMM_BOOT_COMPLETE from `services/rmmd_svc.h`. -/
def RMM_BOOT_COMPLETE : Nat := 0xc40001cf

/-- Modelled from the spec: the SVE hint bit OR-ed into a forwarded function id
when `is_sve_hint_set(flags)` holds (FUNCID_SVE_HINT_MASK << FUNCID_SVE_HINT_SHIFT). -/
def FUNCID_SVE_HINT_BIT : Nat := 2 ^ 16

/-! ## Data model -/

/-- realm_info_t from `rmmd_private.h`: realm descriptor plus the pending
timer-expiration value. -/
structure RealmInfo where
  rd : Nat
  timer_expiration : Nat
deriving Repr, DecidableEq

/-- The security state a call originated from (`caller_sec_state(flags)`):
SMC_FROM_NON_SECURE, SMC_FROM_SECURE or SMC_FROM_REALM. -/
inductive SecState where
  | nonSecure
  | secure
  | realm
deriving Repr, DecidableEq

/-- The file-scope globals of `rmmd_main.c` that the dispatcher reads and
writes: the boot-failure latch, the realm registry (fixed array plus count) and
the lifecycle flags. -/
structure RouterState where
  rmm_boot_failed : Bool
  realm_values : List RealmInfo
  realm_count : Nat
  realm_created : Bool
  realm_created_id : Nat
  realm_getting_rpv : Bool
  realm_getting_rpv_id : Nat
deriving Repr, DecidableEq

/-- The file-scope globals of `rmmd_timer.c`: the triggered flag, the on-record
realm descriptor, the timer-side awaiting-fetch flag (named `realm_created`
there as well) and the stored pending expiration. -/
structure TimerState where
  timer_triggered : Bool
  realm_descriptor : Nat
  realm_created : Bool
  timer_expiration : Nat
deriving Repr, DecidableEq

/-- The hardware countdown as seen through `setting_timer` /
`write_cntps_ctl_el1(0)`: whether the enable bit is set, and the duration last
passed to `setting_timer` (the value whose scaled form is written to the
comparator). -/
structure HwTimer where
  armed : Bool
  last_duration : Nat
deriving Repr, DecidableEq

/-- The whole mutable state of the subsystem. -/
structure SysState where
  router : RouterState
  timer : TimerState
  hw : HwTimer
deriving Repr, DecidableEq

/-- The SMC outcome an RMI-handler invocation produces: a direct return
(SMC_RET1 with a result code), a forward into the Realm world
(`rmmd_smc_forward(NON_SECURE, REALM, ...)`), or a forward back to the Normal
world (`rmmd_smc_forward(REALM, NON_SECURE, ...)`). -/
inductive RmiResult where
  | ret1 (x0 : Int)
  | fwdRealm (x0 x1 x2 x3 x4 : Nat)
  | fwdNormal (x0 x1 x2 x3 x4 : Nat)
deriving Repr, DecidableEq

/-- The SMC outcome of the RMM-EL3 interface handler: a direct return with a
result code, one of the external-collaborator actions (GPT delegate/undelegate,
attestation, feature query — these call functions outside this subsystem and
return their results), or the no-return boot-complete exit. -/
inductive El3Result where
  | ret1 (x0 : Int)
  | gtsiDelegate (x1 : Nat)
  | gtsiUndelegate (x1 : Nat)
  | attestPlatToken (x1 x2 x3 : Nat)
  | attestRealmKey (x1 x2 x3 : Nat)
  | el3Features (x1 : Nat)
  | bootCompleteExit (x1 : Nat)
deriving Repr, DecidableEq

/-! ## Timer subsystem (`rmmd_timer.c`) -/

/-- setting_timer from `rmmd_timer.c`: programs the comparator from the given
duration and enables the countdown unmasked.  Modelled as recording the
duration and setting the armed bit. -/
def setting_timer (time_to_set : Nat) : HwTimer :=
  { armed := true, last_duration := time_to_set }

/-- rmmd_timer_set_expiration from `rmmd_timer.c`: store the supplied value as
the pending expiration, substituting the fixed fallback for zero. -/
def rmmd_timer_set_expiration (rpv_timer_expiration : Nat) (t : TimerState) : TimerState :=
  if rpv_timer_expiration = 0 then
    { t with timer_expiration := REALM_DESTROY_TIMER_SECONDS }
  else
    { t with timer_expiration := rpv_timer_expiration }

/-- rmmd_timer_init from `rmmd_timer.c`.  Creation mode records the descriptor,
sets the timer-side `realm_created` flag and arms the fixed fetch delay; setup
mode clears that flag and arms the stored expiration. -/
def rmmd_timer_init (rd : Nat) (create : Bool) (s : SysState) : SysState :=
  if create then
    { s with
      timer := { s.timer with realm_descriptor := rd, realm_created := true }
      hw := setting_timer REALM_RPV_GET_TIMER_SECONDS }
  else
    { s with
      timer := { s.timer with realm_created := false }
      hw := setting_timer s.timer.timer_expiration }

/-! ## RMI dispatcher (`rmmd_main.c`) -/

/-- rmmd_rmi_handler from `rmmd_main.c`.  Faithful to the source's order:
boot-failure latch, Secure-origin rejection, the DEST function-identifier
dispatch (create / fetch-instance-value / activate), the Normal-world forward
(with the SVE hint bit), then the Realm-world completion handling.  `x5` stands
for `SMC_GET_GP(handle, CTX_GPREG_X5)`. -/
def rmmd_rmi_handler (smc_fid x1 x2 x3 x4 x5 : Nat) (origin : SecState)
    (sve_hint : Bool) (s : SysState) : SysState × RmiResult :=
  if s.router.rmm_boot_failed then
    (s, .ret1 SMC_UNK)
  else if origin = .secure then
    (s, .ret1 SMC_UNK)
  else
    let s :=
      if smc_fid = RMI_REALM_CREATE_FID then
        if MAX_REALM_NUMS ≤ s.router.realm_count then
          s
        else
          { s with
            router := { s.router with
              realm_values := s.router.realm_values.set s.router.realm_count
                { rd := x1, timer_expiration := 0 }
              realm_count := s.router.realm_count + 1
              realm_created_id := x1
              realm_created := true } }
      else if smc_fid = RMI_RPV_GET_FID then
        { s with router := { s.router with realm_getting_rpv := true } }
      else if smc_fid = RMI_REALM_ACTIVATE_FID then
        rmmd_timer_init x1 false s
      else
        s
    if origin = .nonSecure then
      let fwd_fid := if sve_hint then smc_fid ||| FUNCID_SVE_HINT_BIT else smc_fid
      (s, .fwdRealm fwd_fid x1 x2 x3 x4)
    else if origin ≠ .realm then
      (s, .ret1 SMC_UNK)
    else if smc_fid = RMM_RMI_REQ_COMPLETE then
      if s.router.realm_created then
        let s := { s with
          router := { s.router with
            realm_created := false
            realm_getting_rpv_id := s.router.realm_created_id } }
        let s := rmmd_timer_init s.router.realm_created_id true s
        let s := { s with router := { s.router with realm_created_id := 0 } }
        (s, .fwdNormal x1 x2 x3 x4 x5)
      else if s.router.realm_getting_rpv then
        let s := { s with timer := rmmd_timer_set_expiration x1 s.timer }
        let s := { s with router := { s.router with realm_getting_rpv := false } }
        (s, .fwdNormal x1 x2 x3 x4 x5)
      else
        (s, .fwdNormal x1 x2 x3 x4 x5)
    else
      (s, .ret1 SMC_UNK)

/-- rmmd_rmm_el3_handler from `rmmd_main.c`: boot-failure latch, rejection of
non-Realm origins, then the switch over the EL3-interface identifiers (the
RMMD_ENABLE_EL3_TOKEN_SIGN build option is taken as disabled, its default). -/
def rmmd_rmm_el3_handler (smc_fid x1 x2 x3 x4 : Nat) (origin : SecState)
    (s : SysState) : SysState × El3Result :=
  if s.router.rmm_boot_failed then
    (s, .ret1 SMC_UNK)
  else if origin ≠ .realm then
    (s, .ret1 SMC_UNK)
  else if smc_fid = RMM_GTSI_DELEGATE then
    (s, .gtsiDelegate x1)
  else if smc_fid = RMM_GTSI_UNDELEGATE then
    (s, .gtsiUndelegate x1)
  else if smc_fid = RMM_ATTEST_GET_PLAT_TOKEN then
    (s, .attestPlatToken x1 x2 x3)
  else if smc_fid = RMM_ATTEST_GET_REALM_KEY then
    (s, .attestRealmKey x1 x2 x3)
  else if smc_fid = RMM_EL3_FEATURES then
    (s, .el3Features x1)
  else if smc_fid = RMM_BOOT_COMPLETE then
    (s, .bootCompleteExit x1)
  else
    (s, .ret1 SMC_UNK)

/-! ## Timer interrupt handler (`rmmd_timer.c`) -/

/-- What one firing of `rmmd_timer_handler` did: the new state, whether the
interrupt was acknowledged and end-of-interrupt signalled, which synthetic call
(function identifier, first argument) was issued into the realm world if any,
and the returned `rc` — `none` models the untouched initial `uint64_t rc = 0`,
`some r` the value returned by the inner `rmmd_rmi_handler` invocation. -/
structure TimerFire where
  state : SysState
  acked : Bool
  eoi : Bool
  synthetic : Option (Nat × Nat)
  rc : Option RmiResult
deriving Repr, DecidableEq

/-- rmmd_timer_handler from `rmmd_timer.c`.  The awaiting-fetch branch clears
the timer-side flag and issues fetch-instance-value; the other branch issues
destroy-all-data; with a zero descriptor neither branch issues a call.  Both
branches acknowledge the interrupt on entry and signal end-of-interrupt at the
end, and disarm the countdown (`write_cntps_ctl_el1(0)`) before the synthetic
call. -/
def rmmd_timer_handler (s : SysState) : TimerFire :=
  if s.timer.realm_created then
    let s := { s with
      timer := { s.timer with timer_triggered := true, realm_created := false } }
    if s.timer.realm_descriptor ≠ 0 then
      let s := { s with hw := { s.hw with armed := false } }
      let out := rmmd_rmi_handler RMI_RPV_GET_FID s.timer.realm_descriptor 0 0 0 0
        .nonSecure false s
      { state := out.1, acked := true, eoi := true
        synthetic := some (RMI_RPV_GET_FID, s.timer.realm_descriptor)
        rc := some out.2 }
    else
      { state := s, acked := true, eoi := true, synthetic := none, rc := none }
  else
    let s := { s with timer := { s.timer with timer_triggered := true } }
    if s.timer.realm_descriptor ≠ 0 then
      let s := { s with hw := { s.hw with armed := false } }
      let out := rmmd_rmi_handler RMI_DATA_DESTROY_ALL_FID s.timer.realm_descriptor 0 0 0 0
        .nonSecure false s
      { state := out.1, acked := true, eoi := true
        synthetic := some (RMI_DATA_DESTROY_ALL_FID, s.timer.realm_descriptor)
        rc := some out.2 }
    else
      { state := s, acked := true, eoi := true, synthetic := none, rc := none }

/-! ## Initial state and execution helpers -/

/-- The zero-initialised C globals of both translation units at boot. -/
def initState : SysState :=
  { router :=
      { rmm_boot_failed := false
        realm_values := List.replicate MAX_REALM_NUMS { rd := 0, timer_expiration := 0 }
        realm_count := 0
        realm_created := false
        realm_created_id := 0
        realm_getting_rpv := false
        realm_getting_rpv_id := 0 }
    timer :=
      { timer_triggered := false
        realm_descriptor := 0
        realm_created := false
        timer_expiration := 0 }
    hw := { armed := false, last_duration := 0 } }

/-- The state transition of one RMI-handler invocation, results dropped. -/
def rmiStep (fid x1 : Nat) (origin : SecState) (s : SysState) : SysState :=
  (rmmd_rmi_handler fid x1 0 0 0 0 origin false s).1

/-- The full handshake: create (Normal world), activate (Normal world),
completion trap (Realm world), the fetch-delay timer firing (which issues the
synthetic fetch-instance-value call), then the completion trap that supplies
the fetched value `v` in its first argument. -/
def handshake (s : SysState) (rd v : Nat) : SysState :=
  let s1 := rmiStep RMI_REALM_CREATE_FID rd .nonSecure s
  let s2 := rmiStep RMI_REALM_ACTIVATE_FID rd .nonSecure s1
  let s3 := rmiStep RMM_RMI_REQ_COMPLETE 0 .realm s2
  let s4 := (rmmd_timer_handler s3).state
  rmiStep RMM_RMI_REQ_COMPLETE v .realm s4

/-- A sequence of create calls from the Normal world, one per listed realm
descriptor. -/
def runCreates (s : SysState) (ids : List Nat) : SysState :=
  ids.foldl (fun t id => rmiStep RMI_REALM_CREATE_FID id .nonSecure t) s

/-- A boot-failed variant of the initial state (`rmm_boot_failed` latched). -/
def bootFailedState : SysState :=
  { initState with router := { initState.router with rmm_boot_failed := true } }

/-- A reachable registry-at-capacity state: four realms created and the
post-create completion consumed, leaving the lifecycle flags clear. -/
def capacityState : SysState :=
  { initState with router :=
      { initState.router with
        realm_values :=
          [ { rd := 1, timer_expiration := 0 }, { rd := 2, timer_expiration := 0 },
            { rd := 3, timer_expiration := 0 }, { rd := 4, timer_expiration := 0 } ]
        realm_count := 4 } }

/-- A state right after a create call: lifecycle in the post-create phase with
the pending-create identifier 0x10 recorded. -/
def createdPendingState : SysState :=
  { initState with router :=
      { initState.router with realm_created := true, realm_created_id := 0x10 } }

/-- A state with the creation-mode timer armed: awaiting-fetch flag set and
realm descriptor 9 on record. -/
def armedFetchState : SysState :=
  { initState with timer :=
      { initState.timer with realm_created := true, realm_descriptor := 9 } }

/-- A destroy-phase timer state: awaiting-fetch flag clear, realm descriptor 9
on record. -/
def destroyPhaseState : SysState :=
  { initState with timer := { initState.timer with realm_descriptor := 9 } }

/-! ## Helper lemmas -/

/-- Unfolding lemma: a create sequence starting with `a` first performs the
create step for `a`. -/
theorem runCreates_cons (s : SysState) (a : Nat) (t : List Nat) :
    runCreates s (a :: t) = runCreates (rmiStep RMI_REALM_CREATE_FID a .nonSecure s) t := rfl

/-- One Normal-world create step keeps the registry count within capacity. -/
theorem create_step_count_le (s : SysState) (id : Nat)
    (h : s.router.realm_count ≤ MAX_REALM_NUMS) :
    (rmiStep RMI_REALM_CREATE_FID id .nonSecure s).router.realm_count ≤ MAX_REALM_NUMS := by
  by_cases hb : s.router.rmm_boot_failed
  · simpa [rmiStep, rmmd_rmi_handler, hb] using h
  · by_cases hc : MAX_REALM_NUMS ≤ s.router.realm_count
    · simpa [rmiStep, rmmd_rmi_handler, hb, hc] using h
    · simp [rmiStep, rmmd_rmi_handler, hb, hc]
      exact Nat.succ_le_of_lt (Nat.not_le.mp hc)

/-! ## Claim theorems -/

/-- Claim C1: once the boot-failure latch `rmm_boot_failed` is set, every call
to `rmmd_rmi_handler` and every call to `rmmd_rmm_el3_handler` — for every
function identifier, argument tuple and origin — returns the fixed SMC_UNK
result and leaves the state untouched (no mutation, no forward). -/
theorem boot_failed_rejects_all (fid x1 x2 x3 x4 x5 : Nat) (origin : SecState)
    (sve_hint : Bool) (s : SysState) (hb : s.router.rmm_boot_failed = true) :
    rmmd_rmi_handler fid x1 x2 x3 x4 x5 origin sve_hint s = (s, .ret1 SMC_UNK) ∧
    rmmd_rmm_el3_handler fid x1 x2 x3 x4 origin s = (s, .ret1 SMC_UNK) := by
  constructor <;> simp [rmmd_rmi_handler, rmmd_rmm_el3_handler, hb]

theorem boot_failed_rejects_all_witness :
    bootFailedState.router.rmm_boot_failed = true ∧
    (rmmd_rmi_handler 0 1 2 3 4 5 .nonSecure false bootFailedState
        = (bootFailedState, .ret1 SMC_UNK) ∧
     rmmd_rmm_el3_handler 0 1 2 3 4 .nonSecure bootFailedState
        = (bootFailedState, .ret1 SMC_UNK)) :=
  ⟨by decide, boot_failed_rejects_all 0 1 2 3 4 5 .nonSecure false bootFailedState (by decide)⟩

/-- Claim C2: with the boot-failure latch clear, every RMI call whose origin is
the Secure world is answered with SMC_UNK, with no forwarding and no state
change. -/
theorem rmi_secure_rejected (fid x1 x2 x3 x4 x5 : Nat) (sve_hint : Bool)
    (s : SysState) (hb : s.router.rmm_boot_failed = false) :
    rmmd_rmi_handler fid x1 x2 x3 x4 x5 .secure sve_hint s = (s, .ret1 SMC_UNK) := by
  simp [rmmd_rmi_handler, hb]

theorem rmi_secure_rejected_witness :
    initState.router.rmm_boot_failed = false ∧
    rmmd_rmi_handler RMI_REALM_CREATE_FID 1 2 3 4 5 .secure false initState
      = (initState, .ret1 SMC_UNK) :=
  ⟨by decide, rmi_secure_rejected RMI_REALM_CREATE_FID 1 2 3 4 5 false initState (by decide)⟩

/-- Claim C5: a request-complete call from the Realm world arriving while the
lifecycle is in the post-create phase (`realm_created` set) clears the create
flag, records the just-created identifier as the pending-RPV identifier, arms
the timer in creation mode (fixed short fetch delay, descriptor bound to that
identifier), clears the pending-create identifier to zero, and forwards the
completion result to the Normal world. -/
theorem req_complete_after_create (s : SysState) (x1 x2 x3 x4 x5 : Nat) (sve_hint : Bool)
    (hb : s.router.rmm_boot_failed = false) (hc : s.router.realm_created = true) :
    (rmmd_rmi_handler RMM_RMI_REQ_COMPLETE x1 x2 x3 x4 x5 .realm sve_hint s).1.router.realm_created
        = false ∧
    (rmmd_rmi_handler RMM_RMI_REQ_COMPLETE x1 x2 x3 x4 x5 .realm sve_hint s).1.router.realm_getting_rpv_id
        = s.router.realm_created_id ∧
    (rmmd_rmi_handler RMM_RMI_REQ_COMPLETE x1 x2 x3 x4 x5 .realm sve_hint s).1.timer.realm_descriptor
        = s.router.realm_created_id ∧
    (rmmd_rmi_handler RMM_RMI_REQ_COMPLETE x1 x2 x3 x4 x5 .realm sve_hint s).1.timer.realm_created
        = true ∧
    (rmmd_rmi_handler RMM_RMI_REQ_COMPLETE x1 x2 x3 x4 x5 .realm sve_hint s).1.hw
        = { armed := true, last_duration := REALM_RPV_GET_TIMER_SECONDS } ∧
    (rmmd_rmi_handler RMM_RMI_REQ_COMPLETE x1 x2 x3 x4 x5 .realm sve_hint s).1.router.realm_created_id
        = 0 ∧
    (rmmd_rmi_handler RMM_RMI_REQ_COMPLETE x1 x2 x3 x4 x5 .realm sve_hint s).2
        = .fwdNormal x1 x2 x3 x4 x5 := by
  simp [rmmd_rmi_handler, rmmd_timer_init, setting_timer, hb, hc,
        RMM_RMI_REQ_COMPLETE, RMI_REALM_CREATE_FID, RMI_RPV_GET_FID, RMI_REALM_ACTIVATE_FID]

theorem req_complete_after_create_witness :
    createdPendingState.router.rmm_boot_failed = false ∧
    createdPendingState.router.realm_created = true ∧
    ((rmmd_rmi_handler RMM_RMI_REQ_COMPLETE 11 12 13 14 15 .realm false createdPendingState).1.router.realm_created
        = false ∧
     (rmmd_rmi_handler RMM_RMI_REQ_COMPLETE 11 12 13 14 15 .realm false createdPendingState).1.router.realm_getting_rpv_id
        = createdPendingState.router.realm_created_id ∧
     (rmmd_rmi_handler RMM_RMI_REQ_COMPLETE 11 12 13 14 15 .realm false createdPendingState).1.timer.realm_descriptor
        = createdPendingState.router.realm_created_id ∧
     (rmmd_rmi_handler RMM_RMI_REQ_COMPLETE 11 12 13 14 15 .realm false createdPendingState).1.timer.realm_created
        = true ∧
     (rmmd_rmi_handler RMM_RMI_REQ_COMPLETE 11 12 13 14 15 .realm false createdPendingState).1.hw
        = { armed := true, last_duration := REALM_RPV_GET_TIMER_SECONDS } ∧
     (rmmd_rmi_handler RMM_RMI_REQ_COMPLETE 11 12 13 14 15 .realm false createdPendingState).1.router.realm_created_id
        = 0 ∧
     (rmmd_rmi_handler RMM_RMI_REQ_COMPLETE 11 12 13 14 15 .realm false createdPendingState).2
        = .fwdNormal 11 12 13 14 15) :=
  ⟨by decide, by decide,
   req_complete_after_create createdPendingState 11 12 13 14 15 false (by decide) (by decide)⟩

/-- Claim C7: a timer fire with the awaiting-fetch flag clear and no on-record
realm descriptor acknowledges the interrupt, signals end-of-interrupt, issues
no synthetic call, returns the untouched zero result, and only marks the
triggered flag. -/
theorem timer_fire_quiescent (s : SysState)
    (hc : s.timer.realm_created = false) (hd : s.timer.realm_descriptor = 0) :
    rmmd_timer_handler s =
      { state := { s with timer := { s.timer with timer_triggered := true } }
        acked := true, eoi := true, synthetic := none, rc := none } := by
  simp [rmmd_timer_handler, hc, hd]

theorem timer_fire_quiescent_witness :
    initState.timer.realm_created = false ∧
    initState.timer.realm_descriptor = 0 ∧
    rmmd_timer_handler initState =
      { state := { initState with
          timer := { initState.timer with timer_triggered := true } }
        acked := true, eoi := true, synthetic := none, rc := none } :=
  ⟨by decide, by decide, timer_fire_quiescent initState (by decide) (by decide)⟩

/-- Claim C9 counterexample: with the registry at capacity and the lifecycle
idle, a create call for identifier 0x99 does NOT transition the lifecycle to
the post-create phase — `realm_created` stays false and no pending-create
identifier is recorded — contrary to the claim that the transition still
happens. -/
theorem create_at_capacity_cex :
    capacityState.router.realm_count = MAX_REALM_NUMS ∧
    capacityState.router.realm_created = false ∧
    (rmiStep RMI_REALM_CREATE_FID 0x99 .nonSecure capacityState).router.realm_created = false ∧
    (rmiStep RMI_REALM_CREATE_FID 0x99 .nonSecure capacityState).router.realm_created_id ≠ 0x99 := by
  decide

/-- Claim C9 as amended: a create call arriving at capacity leaves the whole
dispatcher state unchanged — no record stored, and the lifecycle does NOT
transition (`realm_created` and the pending-create identifier keep their prior
values) — while the call is still forwarded to the Realm world. -/
theorem create_at_capacity_noop (s : SysState) (x1 x2 x3 x4 x5 : Nat) (sve_hint : Bool)
    (hb : s.router.rmm_boot_failed = false)
    (hcap : MAX_REALM_NUMS ≤ s.router.realm_count) :
    rmmd_rmi_handler RMI_REALM_CREATE_FID x1 x2 x3 x4 x5 .nonSecure sve_hint s =
      (s, .fwdRealm
        (if sve_hint then RMI_REALM_CREATE_FID ||| FUNCID_SVE_HINT_BIT
         else RMI_REALM_CREATE_FID) x1 x2 x3 x4) := by
  simp [rmmd_rmi_handler, hb, hcap,
        RMI_REALM_CREATE_FID, RMI_RPV_GET_FID, RMI_REALM_ACTIVATE_FID]

theorem create_at_capacity_noop_witness :
    capacityState.router.rmm_boot_failed = false ∧
    MAX_REALM_NUMS ≤ capacityState.router.realm_count ∧
    rmmd_rmi_handler RMI_REALM_CREATE_FID 0x99 0 0 0 0 .nonSecure false capacityState =
      (capacityState, .fwdRealm
        (if false then RMI_REALM_CREATE_FID ||| FUNCID_SVE_HINT_BIT
         else RMI_REALM_CREATE_FID) 0x99 0 0 0) :=
  ⟨by decide, by decide,
   create_at_capacity_noop capacityState 0x99 0 0 0 0 false (by decide) (by decide)⟩

/-- Claim C10: `rmmd_timer_set_expiration` always stores a nonzero pending
expiration — zero is replaced by the fallback REALM_DESTROY_TIMER_SECONDS and
any nonzero input is stored as given — yet the initial value of
`timer_expiration` is zero, so a setup-mode arm before the first call uses
duration zero. -/
theorem set_expiration_nonzero_initial_zero (t : TimerState) (v rd : Nat) :
    (rmmd_timer_set_expiration v t).timer_expiration ≠ 0 ∧
    (v ≠ 0 → (rmmd_timer_set_expiration v t).timer_expiration = v) ∧
    (v = 0 → (rmmd_timer_set_expiration v t).timer_expiration = REALM_DESTROY_TIMER_SECONDS) ∧
    initState.timer.timer_expiration = 0 ∧
    (rmmd_timer_init rd false initState).hw.last_duration = 0 := by
  refine ⟨?_, ?_, ?_, rfl, by simp [rmmd_timer_init, setting_timer, initState]⟩
  · by_cases hv : v = 0 <;>
      simp [rmmd_timer_set_expiration, hv, REALM_DESTROY_TIMER_SECONDS]
  · intro hv; simp [rmmd_timer_set_expiration, hv]
  · intro hv; simp [rmmd_timer_set_expiration, hv]

theorem set_expiration_nonzero_initial_zero_witness :
    (rmmd_timer_set_expiration 0 initState.timer).timer_expiration ≠ 0 ∧
    ((0 : Nat) ≠ 0 → (rmmd_timer_set_expiration 0 initState.timer).timer_expiration = 0) ∧
    ((0 : Nat) = 0 →
      (rmmd_timer_set_expiration 0 initState.timer).timer_expiration
        = REALM_DESTROY_TIMER_SECONDS) ∧
    initState.timer.timer_expiration = 0 ∧
    (rmmd_timer_init 5 false initState).hw.last_duration = 0 :=
  set_expiration_nonzero_initial_zero initState.timer 0 5

/-- Claim C8: over any sequence of create calls the registry count never
exceeds MAX_REALM_NUMS, and a create step arriving when the registry is
already at capacity leaves every existing record (in particular record 0)
unchanged. -/
theorem registry_capacity_invariant (s : SysState) (ids : List Nat) (id : Nat)
    (h : s.router.realm_count ≤ MAX_REALM_NUMS) :
    (runCreates s ids).router.realm_count ≤ MAX_REALM_NUMS ∧
    (s.router.realm_count = MAX_REALM_NUMS →
      (rmiStep RMI_REALM_CREATE_FID id .nonSecure s).router.realm_values
        = s.router.realm_values) := by
  constructor
  · induction ids generalizing s with
    | nil => exact h
    | cons a t ih => exact ih _ (create_step_count_le s a h)
  · intro hfull
    have hc : MAX_REALM_NUMS ≤ s.router.realm_count := le_of_eq hfull.symm
    by_cases hb : s.router.rmm_boot_failed
    · simp [rmiStep, rmmd_rmi_handler, hb]
    · simp [rmiStep, rmmd_rmi_handler, hb, hc]

theorem registry_capacity_invariant_witness :
    capacityState.router.realm_count ≤ MAX_REALM_NUMS ∧
    ((runCreates capacityState [9, 10]).router.realm_count ≤ MAX_REALM_NUMS ∧
     (capacityState.router.realm_count = MAX_REALM_NUMS →
       (rmiStep RMI_REALM_CREATE_FID 0x99 .nonSecure capacityState).router.realm_values
         = capacityState.router.realm_values)) :=
  ⟨by decide, registry_capacity_invariant capacityState [9, 10] 0x99 (by decide)⟩

/-- Claim C4 counterexample: when `rmmd_timer_set_expiration` was never called
(the stored expiration still holds its initial zero), a setup-mode arm uses
duration 0, not the fixed fallback REALM_DESTROY_TIMER_SECONDS as the claim
states. -/
theorem setup_arm_without_fetch_cex :
    (rmmd_timer_init 5 false initState).hw.last_duration = 0 ∧
    (rmmd_timer_init 5 false initState).hw.last_duration ≠ REALM_DESTROY_TIMER_SECONDS := by
  decide

/-- Claim C4 as amended: if the fetch-completion step never occurs, the stored
expiration keeps its initial value zero and the setup-mode arm uses duration
zero (not the fallback); when that timer fires with a nonzero on-record
descriptor, the synthetic call issued is destroy-all-data, not
fetch-instance-value. -/
theorem setup_arm_uses_initial_zero (s : SysState) (rd : Nat)
    (he : s.timer.timer_expiration = 0) :
    (rmmd_timer_init rd false s).hw.last_duration = 0 ∧
    (s.timer.realm_descriptor ≠ 0 →
      (rmmd_timer_handler (rmmd_timer_init rd false s)).synthetic
        = some (RMI_DATA_DESTROY_ALL_FID, s.timer.realm_descriptor)) := by
  constructor
  · simp [rmmd_timer_init, setting_timer, he]
  · intro hd
    simp [rmmd_timer_init, rmmd_timer_handler, setting_timer, hd]

theorem setup_arm_uses_initial_zero_witness :
    destroyPhaseState.timer.timer_expiration = 0 ∧
    ((rmmd_timer_init 5 false destroyPhaseState).hw.last_duration = 0 ∧
     (destroyPhaseState.timer.realm_descriptor ≠ 0 →
       (rmmd_timer_handler (rmmd_timer_init 5 false destroyPhaseState)).synthetic
         = some (RMI_DATA_DESTROY_ALL_FID, destroyPhaseState.timer.realm_descriptor))) :=
  ⟨by decide, setup_arm_uses_initial_zero destroyPhaseState 5 (by decide)⟩

/-- Claim C6: a timer fire with a nonzero on-record descriptor disarms the
countdown and leaves the awaiting-fetch flag clear; with the flag set it
issues the synthetic fetch-instance-value call for that descriptor, with the
flag clear the synthetic destroy-all-data call; in both cases the returned
`rc` is exactly the result of that inner `rmmd_rmi_handler` invocation. -/
theorem timer_fire_with_descriptor (s : SysState) (hd : s.timer.realm_descriptor ≠ 0) :
    (rmmd_timer_handler s).state.timer.realm_created = false ∧
    (rmmd_timer_handler s).state.hw.armed = false ∧
    (s.timer.realm_created = true →
      (rmmd_timer_handler s).synthetic = some (RMI_RPV_GET_FID, s.timer.realm_descriptor) ∧
      (rmmd_timer_handler s).rc = some (rmmd_rmi_handler RMI_RPV_GET_FID
        s.timer.realm_descriptor 0 0 0 0 .nonSecure false
        { s with
          timer := { s.timer with timer_triggered := true, realm_created := false }
          hw := { s.hw with armed := false } }).2) ∧
    (s.timer.realm_created = false →
      (rmmd_timer_handler s).synthetic = some (RMI_DATA_DESTROY_ALL_FID, s.timer.realm_descriptor) ∧
      (rmmd_timer_handler s).rc = some (rmmd_rmi_handler RMI_DATA_DESTROY_ALL_FID
        s.timer.realm_descriptor 0 0 0 0 .nonSecure false
        { s with
          timer := { s.timer with timer_triggered := true }
          hw := { s.hw with armed := false } }).2) := by
  by_cases hc : s.timer.realm_created <;>
    by_cases hb : s.router.rmm_boot_failed <;>
      simp [rmmd_timer_handler, rmmd_rmi_handler, rmmd_timer_init, setting_timer, hd, hc, hb,
            RMI_REALM_CREATE_FID, RMI_RPV_GET_FID, RMI_REALM_ACTIVATE_FID, RMI_DATA_DESTROY_ALL_FID]

theorem timer_fire_with_descriptor_witness :
    armedFetchState.timer.realm_descriptor ≠ 0 ∧
    ((rmmd_timer_handler armedFetchState).state.timer.realm_created = false ∧
     (rmmd_timer_handler armedFetchState).state.hw.armed = false ∧
     (armedFetchState.timer.realm_created = true →
       (rmmd_timer_handler armedFetchState).synthetic
         = some (RMI_RPV_GET_FID, armedFetchState.timer.realm_descriptor) ∧
       (rmmd_timer_handler armedFetchState).rc = some (rmmd_rmi_handler RMI_RPV_GET_FID
         armedFetchState.timer.realm_descriptor 0 0 0 0 .nonSecure false
         { armedFetchState with
           timer := { armedFetchState.timer with timer_triggered := true, realm_created := false }
           hw := { armedFetchState.hw with armed := false } }).2) ∧
     (armedFetchState.timer.realm_created = false →
       (rmmd_timer_handler armedFetchState).synthetic
         = some (RMI_DATA_DESTROY_ALL_FID, armedFetchState.timer.realm_descriptor) ∧
       (rmmd_timer_handler armedFetchState).rc = some (rmmd_rmi_handler RMI_DATA_DESTROY_ALL_FID
         armedFetchState.timer.realm_descriptor 0 0 0 0 .nonSecure false
         { armedFetchState with
           timer := { armedFetchState.timer with timer_triggered := true }
           hw := { armedFetchState.hw with armed := false } }).2)) :=
  ⟨by decide, timer_fire_with_descriptor armedFetchState (by decide)⟩

/-- Claim C3 counterexample: running the full handshake with fetched value 0,
the next setup-mode arm uses the fixed fallback duration
REALM_DESTROY_TIMER_SECONDS, not the supplied value 0 — so the claim fails for
value zero. -/
theorem handshake_zero_value_cex :
    (rmmd_timer_init 3 false (handshake initState 0x10 0)).hw.last_duration
        = REALM_DESTROY_TIMER_SECONDS ∧
    (rmmd_timer_init 3 false (handshake initState 0x10 0)).hw.last_duration ≠ 0 := by
  decide

/-- Claim C3 as amended: for every execution of the full handshake
create → activate → request-complete → timer fires → fetch →
fetch request-complete supplying a NONZERO value `v`, the stored expiration
equals `v` and the next setup-mode arm (`rmmd_timer_init` with create = false)
uses duration `v`, not the fallback.  (A zero value is replaced by the
fallback — see the counterexample.) -/
theorem handshake_stores_supplied_value (s : SysState) (rd v a : Nat)
    (hb : s.router.rmm_boot_failed = false)
    (hcap : s.router.realm_count < MAX_REALM_NUMS)
    (hrd : rd ≠ 0) (hv : v ≠ 0) :
    (handshake s rd v).timer.timer_expiration = v ∧
    (rmmd_timer_init a false (handshake s rd v)).hw.last_duration = v := by
  have hnle : ¬ MAX_REALM_NUMS ≤ s.router.realm_count := Nat.not_le.mpr hcap
  simp [handshake, rmiStep, rmmd_rmi_handler, rmmd_timer_handler, rmmd_timer_init,
        rmmd_timer_set_expiration, setting_timer, hb, hnle, hrd, hv,
        RMI_REALM_CREATE_FID, RMI_REALM_ACTIVATE_FID, RMI_RPV_GET_FID,
        RMI_DATA_DESTROY_ALL_FID, RMM_RMI_REQ_COMPLETE]

theorem handshake_stores_supplied_value_witness :
    initState.router.rmm_boot_failed = false ∧
    initState.router.realm_count < MAX_REALM_NUMS ∧
    (0x10 : Nat) ≠ 0 ∧
    (7 : Nat) ≠ 0 ∧
    ((handshake initState 0x10 7).timer.timer_expiration = 7 ∧
     (rmmd_timer_init 3 false (handshake initState 0x10 7)).hw.last_duration = 7) :=
  ⟨by decide, by decide, by decide, by decide,
   handshake_stores_supplied_value initState 0x10 7 3 (by decide) (by decide)
     (by decide) (by decide)⟩
